import Mathlib

set_option maxRecDepth 4000

/-!
Verification of the node fan-out runner and the ConfigMap helpers of the
openshift-ovn-kubernetes-log-debug scripts.

The two Python scripts are shallowly embedded here.  External effects
(subprocess invocations via the `oc` CLI) are represented by an oracle
`Exec` mapping a command string to either a result (exit code and captured
output) or an error message standing for a raised exception
(TimeoutExpired, FileNotFoundError, ...).  Every embedded function also
returns the list of remote commands it dispatched, which serves as its
side-effect trace.
-/

/-- Result of one subprocess invocation: exit code and captured output. -/
structure CmdResult where
  returncode : Int
  stdout : String
  stderr : String
deriving DecidableEq

/-- Remote execution oracle, standing for `subprocess.run` of a command
string.  An `Except.error` models a raised exception. -/
abbrev Exec := String → Except String CmdResult

/-- Membership of one string inside another, mirroring the Python
`needle in haystack` operator on strings. -/
def contains_substr (haystack needle : String) : Bool :=
  decide (needle.toList <:+: haystack.toList)

/-- ASCII lowercasing of a string, mirroring the Python `.lower()` calls
of the sources (applied character by character). -/
def py_lower (s : String) : String :=
  ⟨s.data.map Char.toLower⟩

/-- Whitespace stripping at both ends, mirroring the Python `.strip()`. -/
def py_strip (s : String) : String :=
  ⟨((s.data.dropWhile Char.isWhitespace).reverse.dropWhile Char.isWhitespace).reverse⟩

/-- First n characters of a string, mirroring the Python slice `[:n]`. -/
def py_take (s : String) (n : Nat) : String :=
  ⟨s.data.take n⟩

/-- Character membership in a string, mirroring the Python `c in s`. -/
def py_char_mem (s : String) (c : Char) : Bool :=
  s.data.contains c

/-- First component of the Python `node_name.split(".")`. -/
def split_dot_head (s : String) : String :=
  ⟨s.data.takeWhile (fun c => c != '.')⟩

/-- Shell command executed inside the RETIS systemd unit
(retis-collect-nodes.py line 267). -/
def collection_shell_command (image wd : String) : String :=
  "export RETIS_IMAGE=\x27" ++ image ++ "\x27; " ++ wd ++
    "/retis_in_container.sh collect -o events.json --allow-system-changes --ovs-track --stack --probe-stack --filter-packet \x27tcp port 8080 or tcp port 8081\x27"

/-- Full `oc debug` command starting the RETIS collection unit (line 270). -/
def collection_command (node image wd : String) : String :=
  "oc debug node/" ++ node ++ " -- chroot /host systemd-run --unit=\"RETIS\" --working-directory=" ++
    wd ++ " sh -c \"" ++ collection_shell_command image wd ++ "\""

/-- `systemctl status` command for the RETIS unit (line 306). -/
def status_command (node : String) : String :=
  "oc debug node/" ++ node ++ " -- chroot /host systemctl status RETIS"

/-- `systemctl stop` command for the RETIS unit (line 230). -/
def stop_command (node : String) : String :=
  "oc debug node/" ++ node ++ " -- chroot /host systemctl stop RETIS"

/-- Status parsing of `run_retis_on_node` (lines 310-331): from the status
stdout, compute the pair (unit_status, unit_failed).  The source only
parses a non-empty stdout and otherwise leaves the initial values
("unknown", False). -/
def classify_status (stdout : String) : String × Bool :=
  if stdout == "" then ("unknown", false)
  else
    let s := py_lower stdout
    if contains_substr s "active: failed" || contains_substr s "failed" then
      ("failed", true)
    else if contains_substr s "active: active" then ("running", false)
    else if contains_substr s "active: inactive" && contains_substr s "exited" then
      if contains_substr s "code=exited, status=0" then ("completed successfully", false)
      else ("completed with errors", true)
    else ("unknown", false)

/-- Final verdict of `run_retis_on_node` from the parsed status
(lines 337-348). -/
def status_decision (c : String × Bool) : Bool :=
  if c.2 then false
  else if c.1 == "running" then true
  else if c.1 == "completed successfully" then true
  else false

/-- Verdict of `run_retis_on_node` as a function of the raw status stdout. -/
def run_status_verdict (stdout : String) : Bool :=
  status_decision (classify_status stdout)

/-- Embedding of `run_retis_on_node` (lines 262-358).  The per-node
catch-all (`except Exception: return False`) turns any exception from the
execution layer into a False result; the second component is the list of
remote commands dispatched. -/
def run_retis_on_node (exec : Exec) (node image wd : String) (dryRun : Bool) :
    Bool × List String :=
  if dryRun then (true, [])
  else
    let cmd := collection_command node image wd
    match exec cmd with
    | Except.error _ => (false, [cmd])
    | Except.ok result =>
      if result.returncode != 0 then (false, [cmd])
      else
        let scmd := status_command node
        match exec scmd with
        | Except.error _ => (false, [cmd, scmd])
        | Except.ok status_result =>
          (run_status_verdict status_result.stdout, [cmd, scmd])

/-- Embedding of `stop_retis_on_node` (lines 219-260). -/
def stop_retis_on_node (exec : Exec) (node : String) (dryRun : Bool) :
    Bool × List String :=
  if dryRun then (true, [])
  else
    let cmd := stop_command node
    match exec cmd with
    | Except.error _ => (false, [cmd])
    | Except.ok r => (r.returncode == 0, [cmd])

/-- `ls -la` check of the script on the node (lines 108, 200). -/
def check_script_command (node wd : String) : String :=
  "oc debug node/" ++ node ++ " -- chroot /host ls -la " ++ wd ++ "/retis_in_container.sh"

/-- Working-directory creation command (line 133). -/
def mkdir_command (node wd : String) : String :=
  "oc debug node/" ++ node ++ " -- chroot /host mkdir -p " ++ wd

/-- Background debug pod started for copying (line 146). -/
def debug_pod_command (node : String) : String :=
  "oc debug node/" ++ node ++ " --to-namespace=default -- sleep 300"

/-- Debug pod lookup pipeline (line 156). -/
def get_pod_command (node : String) : String :=
  "oc get pods -n default --no-headers | grep " ++ split_dot_head node ++
    " | grep debug | head -1 | awk \x27\x7bprint $1\x7d\x27"

/-- Script copy into the debug pod (line 168). -/
def copy_command (localScript podName wd : String) : String :=
  "oc cp " ++ localScript ++ " default/" ++ podName ++ ":/host" ++ wd ++
    "/retis_in_container.sh"

/-- chmod command for the script (line 187). -/
def chmod_command (node wd : String) : String :=
  "oc debug node/" ++ node ++ " -- chroot /host chmod a+x " ++ wd ++ "/retis_in_container.sh"

/-- Final verification step of `setup_script_on_node` (lines 199-210). -/
def setup_verify_stage (exec : Exec) (node wd : String) (trace : List String) :
    Bool × List String :=
  let vcmd := check_script_command node wd
  match exec vcmd with
  | Except.error _ => (false, trace ++ [vcmd])
  | Except.ok r => (r.returncode == 0, trace ++ [vcmd])

/-- chmod step of `setup_script_on_node` (lines 184-197). -/
def setup_chmod_stage (exec : Exec) (node wd : String) (script_executable : Bool)
    (trace : List String) : Bool × List String :=
  if script_executable then setup_verify_stage exec node wd trace
  else
    let ccmd := chmod_command node wd
    match exec ccmd with
    | Except.error _ => (false, trace ++ [ccmd])
    | Except.ok r =>
      if r.returncode != 0 then (false, trace ++ [ccmd])
      else setup_verify_stage exec node wd (trace ++ [ccmd])

/-- Copy step of `setup_script_on_node` (lines 141-182): start a debug pod,
look its name up, copy the script into it. -/
def setup_copy_stage (exec : Exec) (node wd localScript : String)
    (script_exists script_executable : Bool) (trace : List String) :
    Bool × List String :=
  if script_exists then setup_chmod_stage exec node wd script_executable trace
  else
    let dcmd := debug_pod_command node
    let pcmd := get_pod_command node
    match exec pcmd with
    | Except.error _ => (false, trace ++ [dcmd, pcmd])
    | Except.ok pod_result =>
      if pod_result.returncode != 0 || py_strip pod_result.stdout == "" then
        (false, trace ++ [dcmd, pcmd])
      else
        let cpcmd := copy_command localScript (py_strip pod_result.stdout) wd
        match exec cpcmd with
        | Except.error _ => (false, trace ++ [dcmd, pcmd, cpcmd])
        | Except.ok cp_result =>
          if cp_result.returncode != 0 then (false, trace ++ [dcmd, pcmd, cpcmd])
          else setup_chmod_stage exec node wd script_executable (trace ++ [dcmd, pcmd, cpcmd])

/-- Embedding of `setup_script_on_node` (lines 95-217).  An exception at
any step is absorbed by the catch-all and yields False. -/
def setup_script_on_node (exec : Exec) (node wd localScript : String) (dryRun : Bool) :
    Bool × List String :=
  if dryRun then (true, [])
  else
    let ckcmd := check_script_command node wd
    match exec ckcmd with
    | Except.error _ => (false, [ckcmd])
    | Except.ok check_result =>
      let script_exists := check_result.returncode == 0 && check_result.stdout != ""
      let script_executable :=
        script_exists && py_char_mem (py_take (py_strip check_result.stdout) 10) 'x'
      if script_executable then (true, [ckcmd])
      else
        let mcmd := mkdir_command node wd
        match exec mcmd with
        | Except.error _ => (false, [ckcmd, mcmd])
        | Except.ok _ =>
          setup_copy_stage exec node wd localScript script_exists script_executable
            [ckcmd, mcmd]

/-- Node-name extraction of `get_nodes_from_configmap` (lines 54-59): every
ConfigMap data key except the reserved sentinel key. -/
def get_nodes_from_configmap (data : List (String × String)) : List String :=
  (data.map Prod.fst).filter (fun key => key != "_master")

/-- The identical extraction inside `revert_debug_logging`
(openshift-ovn-kubernetes-log-debug.py lines 192-197). -/
def revert_affected_nodes (data : List (String × String)) : List String :=
  (data.map Prod.fst).filter (fun key => key != "_master")

/-- Per-node data keys emitted by `render_configmap_template`
(openshift-ovn-kubernetes-log-debug.py lines 59-67): one key per node
whose lowercased name does not contain "master". -/
def rendered_node_keys (nodes : List String) : List String :=
  nodes.filter (fun node => !contains_substr (py_lower node) "master")

/-- All data keys emitted by `render_configmap_template` (lines 59-73):
the per-node keys followed by the sentinel key. -/
def rendered_data_keys (nodes : List String) : List String :=
  rendered_node_keys nodes ++ ["_master"]

/-- Success counting shared by the four fan-out loops of main
(lines 491-510 and 589-608). -/
def success_count (action : String → Bool) : List String → Nat
  | [] => 0
  | n :: rest => (if action n then 1 else 0) + success_count action rest

/-- One fan-out pass over a node list: the success count together with the
concatenated side-effect traces of the per-node actions, in processing
order. -/
def fan_out (action : String → Bool × List String) (nodes : List String) :
    Nat × List String :=
  (success_count (fun n => (action n).1) nodes, (nodes.map (fun n => (action n).2)).flatten)

/-- Observable events of the sequential collection loop (lines 601-608). -/
inductive SeqEvent where
  | progress (i total : Nat)
  | invocation (node : String) (success : Bool)
deriving DecidableEq

/-- Trace of the sequential loop (lines 604-608): the progress line `i/N`
is printed, then the action is invoked on that node. -/
def seq_run_events (action : String → Bool) (total : Nat) : Nat → List String → List SeqEvent
  | _, [] => []
  | i, n :: rest =>
    SeqEvent.progress i total :: SeqEvent.invocation n (action n) ::
      seq_run_events action total (i + 1) rest

/-- Projection of the invocation events out of a sequential trace. -/
def invocation_of : SeqEvent → Option (String × Bool)
  | SeqEvent.invocation n s => some (n, s)
  | _ => none

/-- Futures dictionary of the parallel branch (line 591): one task is
submitted per node, and each submission returns a fresh future (modelled
by the submission index). -/
def future_to_node (nodes : List String) : List (Nat × String) :=
  nodes.enum

/-- Worker-pool bound of the parallel branches (lines 492 and 590). -/
def max_workers (nodes : List String) : Nat :=
  min nodes.length 5

/-- Per-future outcomes of the `as_completed` loop (lines 593-600), read in
completion order: an exception re-raised by `future.result()` is caught
there and the node is recorded as failed. -/
def par_results (action : String → Except String Bool) : List String → List (String × Bool)
  | [] => []
  | n :: rest =>
    (match action n with
      | Except.ok s => (n, s)
      | Except.error _ => (n, false)) :: par_results action rest

/-- Success count accumulated by the `as_completed` loop. -/
def par_success_count (action : String → Except String Bool) (order : List String) : Nat :=
  (par_results action order).countP (fun r => r.2)

/-- Summary block printed at lines 610-616 (and 512-518 on the stop path). -/
structure RunSummary where
  total : Nat
  succeeded : Nat
  failed : Nat
deriving DecidableEq

/-- Summary of a fan-out over `nodes` with `cnt` successes. -/
def collection_summary (nodes : List String) (cnt : Nat) : RunSummary :=
  ⟨nodes.length, cnt, nodes.length - cnt⟩

/-- Possible terminations of main after node discovery. -/
inductive RunOutcome where
  | noNodes
  | downloadFailed
  | noSetupNodes
  | finished (summary : RunSummary)
deriving DecidableEq

/-- Nodes whose setup failed, appended in input order (line 565). -/
def setup_failed_nodes (exec : Exec) (wd ls : String) (dryRun : Bool)
    (nodes : List String) : List String :=
  nodes.filter (fun n => !(setup_script_on_node exec n wd ls dryRun).1)

/-- Node list after the setup filter of line 573 (only applied outside dry
run and only when some setup failed). -/
def effective_nodes (exec : Exec) (wd ls : String) (dryRun : Bool)
    (nodes : List String) : List String :=
  let failed := setup_failed_nodes exec wd ls dryRun nodes
  if !failed.isEmpty && !dryRun then nodes.filter (fun n => !failed.contains n)
  else nodes

/-- Nodes on which the per-node phase is dispatched: the input list on the
stop path, the setup-filtered list on the collection path. -/
def dispatch_list (exec : Exec) (wd ls : String) (stop dryRun : Bool)
    (nodes : List String) : List String :=
  if stop then nodes else effective_nodes exec wd ls dryRun nodes

/-- Collection path of main (lines 533-628): local download check, the
per-node setup pass and its filter, then the sequential or parallel
fan-out and the printed summary.  `order` is the completion order of the
parallel futures. -/
def collect_phase (exec : Exec) (image wd ls : String)
    (parallel dryRun downloadOk : Bool) (nodes order : List String) :
    RunOutcome × List String :=
  if !dryRun && !downloadOk then (RunOutcome.downloadFailed, [])
  else
    let failed := setup_failed_nodes exec wd ls dryRun nodes
    let setup_trace := (nodes.map (fun n => (setup_script_on_node exec n wd ls dryRun).2)).flatten
    let nodes2 := effective_nodes exec wd ls dryRun nodes
    if (!failed.isEmpty && !dryRun) && nodes2.isEmpty then
      (RunOutcome.noSetupNodes, setup_trace)
    else
      let proc_order := if parallel then order else nodes2
      let r := fan_out (fun n => run_retis_on_node exec n image wd dryRun) proc_order
      (RunOutcome.finished (collection_summary nodes2 r.1), setup_trace ++ r.2)

/-- main after node discovery (lines 472-628): empty-node short circuit,
then the stop path (lines 477-531) or the collection path. -/
def main_run (exec : Exec) (image wd ls : String)
    (stop parallel dryRun downloadOk : Bool) (nodes order : List String) :
    RunOutcome × List String :=
  if nodes.isEmpty then (RunOutcome.noNodes, [])
  else if stop then
    let proc_order := if parallel then order else nodes
    let r := fan_out (fun n => stop_retis_on_node exec n dryRun) proc_order
    (RunOutcome.finished (collection_summary nodes r.1), r.2)
  else collect_phase exec image wd ls parallel dryRun downloadOk nodes order

/-- An outcome that ends the run without reaching the per-node collection
dispatch. -/
def aborted_before_dispatch : RunOutcome → Bool
  | RunOutcome.noNodes => true
  | RunOutcome.downloadFailed => true
  | RunOutcome.noSetupNodes => true
  | RunOutcome.finished _ => false

/-- Oracle whose every invocation raises; used to instantiate theorems at
concrete inputs. -/
def exec_stub : Exec := fun _ => Except.error "unavailable"

/-- Concrete action raising for node "a" and succeeding elsewhere. -/
def act_exn : String → Except String Bool :=
  fun n => if n = "a" then Except.error "boom" else Except.ok true

/-- Oracle whose status output marks node "a" failed and node "b" active. -/
def exec_fail_a : Exec := fun c =>
  if c = status_command "a" then Except.ok ⟨0, "Active: failed (Result: exit-code)", ""⟩
  else if c = status_command "b" then Except.ok ⟨0, "Active: active (running)", ""⟩
  else Except.ok ⟨0, "-rwxr-xr-x. 1 root root 9999", ""⟩

/-- Oracle whose status output marks node "b" failed and node "a" active. -/
def exec_fail_b : Exec := fun c =>
  if c = status_command "b" then Except.ok ⟨0, "Active: failed (Result: exit-code)", ""⟩
  else if c = status_command "a" then Except.ok ⟨0, "Active: active (running)", ""⟩
  else Except.ok ⟨0, "-rwxr-xr-x. 1 root root 9999", ""⟩

/-- Concrete status output containing both a success indicator and the
word "failed". -/
def mixed_status_output : String :=
  "Active: active (running); a previous unit failed; code=exited, status=0"

/-- Oracle returning the mixed status output for node n1. -/
def exec_mixed : Exec := fun c =>
  if c = status_command "n1" then Except.ok ⟨0, mixed_status_output, ""⟩
  else Except.ok ⟨0, "ok", ""⟩

/-! ### Helper lemmas -/

theorem countP_congr_mem {α : Type} (l : List α) (p q : α → Bool)
    (h : ∀ a ∈ l, p a = q a) : l.countP p = l.countP q := by
  induction l with
  | nil => rfl
  | cons a t ih =>
    rw [List.countP_cons, List.countP_cons, h a (by simp),
      ih (fun b hb => h b (by simp [hb]))]

theorem countP_bool_split {α : Type} (l : List α) (p : α → Bool) :
    l.countP p + l.countP (fun a => !p a) = l.length := by
  induction l with
  | nil => rfl
  | cons a t ih =>
    rw [List.countP_cons, List.countP_cons, List.length_cons]
    cases h : p a
    · simp [h]; omega
    · simp [h]; omega

theorem countP_mem_finset (nodes : List String) (S : Finset String)
    (hnd : nodes.Nodup) (hsub : ∀ s ∈ S, s ∈ nodes) :
    nodes.countP (fun n => decide (n ∈ S)) = S.card := by
  rw [List.countP_eq_length_filter]
  have hnodup : (nodes.filter (fun n => decide (n ∈ S))).Nodup := hnd.filter _
  have hset : (nodes.filter (fun n => decide (n ∈ S))).toFinset = S := by
    ext a
    simp only [List.mem_toFinset, List.mem_filter, decide_eq_true_eq]
    exact ⟨fun h => h.2, fun h => ⟨hsub a h, h⟩⟩
  rw [← List.toFinset_card_of_nodup hnodup, hset]

theorem success_count_eq_countP (action : String → Bool) (l : List String) :
    success_count action l = l.countP action := by
  induction l with
  | nil => rfl
  | cons a t ih =>
    rw [success_count, List.countP_cons, ih]
    cases h : action a
    · simp [h]
    · simp [h]; omega

theorem success_count_of_true (action : String → Bool) (l : List String)
    (h : ∀ n ∈ l, action n = true) : success_count action l = l.length := by
  induction l with
  | nil => rfl
  | cons a t ih =>
    rw [success_count, h a (by simp), List.length_cons,
      ih (fun b hb => h b (by simp [hb]))]
    simp
    omega

theorem flatten_map_nil (l : List String) (f : String → List String)
    (h : ∀ n ∈ l, f n = []) : (l.map f).flatten = [] := by
  induction l with
  | nil => rfl
  | cons a t ih =>
    simp [h a (by simp), ih (fun b hb => h b (by simp [hb]))]

theorem fan_out_of_dry (action : String → Bool × List String)
    (h : ∀ n, action n = (true, [])) (l : List String) :
    fan_out action l = (l.length, []) := by
  unfold fan_out
  rw [success_count_of_true _ _ (fun n _ => by rw [h n]),
    flatten_map_nil _ _ (fun n _ => by rw [h n])]

theorem fan_out_fst_le (action : String → Bool × List String) (l : List String) :
    (fan_out action l).1 ≤ l.length := by
  simpa [fan_out, success_count_eq_countP] using
    List.countP_le_length (fun n => (action n).1)

theorem setup_failed_nodes_dry (exec : Exec) (wd ls : String) (nodes : List String) :
    setup_failed_nodes exec wd ls true nodes = [] := by
  unfold setup_failed_nodes
  exact List.filter_eq_nil_iff.mpr (fun a _ => by simp [setup_script_on_node])

theorem effective_nodes_dry (exec : Exec) (wd ls : String) (nodes : List String) :
    effective_nodes exec wd ls true nodes = nodes := by
  unfold effective_nodes
  rw [setup_failed_nodes_dry]
  simp

/-! ### Claim theorems -/

/-- C7: the node identifiers extracted from a ConfigMap data mapping never
include the reserved sentinel key "_master", in both extraction sites
(get_nodes_from_configmap and revert_debug_logging), even when the
sentinel key is present in the data. -/
theorem c7_sentinel_never_node (data : List (String × String)) :
    "_master" ∉ get_nodes_from_configmap data ∧
    "_master" ∉ revert_affected_nodes data := by
  constructor <;>
    exact fun h => by
      simp [get_nodes_from_configmap, revert_affected_nodes, List.mem_filter] at h

/-- C9: render_configmap_template emits no per-node data key for a node
whose name contains "master" case-insensitively, and emits the "_master"
data key exactly once. -/
theorem c9_master_nodes_filtered (nodes : List String) (node : String)
    (h : contains_substr (py_lower node) "master" = true) :
    node ∉ rendered_node_keys nodes ∧
    (rendered_data_keys nodes).count "_master" = 1 := by
  constructor
  · intro hmem
    have h2 := (List.mem_filter.mp hmem).2
    rw [h] at h2
    simp at h2
  · rw [rendered_data_keys, List.count_append]
    have h0 : (rendered_node_keys nodes).count "_master" = 0 := by
      rw [List.count_eq_zero]
      intro hmem
      have h2 := (List.mem_filter.mp hmem).2
      exact absurd h2 (by decide)
    rw [h0]
    decide

/-- Witness for C9 at a concrete node list: the node "Worker-MASTER-1"
contains "master" case-insensitively, gets no per-node key, and the
sentinel key appears exactly once. -/
theorem c9_master_nodes_filtered_witness :
    contains_substr (py_lower "Worker-MASTER-1") "master" = true ∧
    "Worker-MASTER-1" ∉ rendered_node_keys ["node-a", "Worker-MASTER-1"] ∧
    (rendered_data_keys ["node-a", "Worker-MASTER-1"]).count "_master" = 1 := by
  have h := c9_master_nodes_filtered ["node-a", "Worker-MASTER-1"] "Worker-MASTER-1" (by decide)
  exact ⟨by decide, h.1, h.2⟩

/-- C10: whenever the systemctl status output contains the substring
"failed" anywhere (case-insensitively), run_retis_on_node reports the
node as failed, regardless of what else the output contains. -/
theorem c10_failed_substring_wins (exec : Exec) (node image wd : String)
    (c r : CmdResult)
    (hc : exec (collection_command node image wd) = Except.ok c)
    (hrc : c.returncode = 0)
    (hs : exec (status_command node) = Except.ok r)
    (hf : contains_substr (py_lower r.stdout) "failed" = true) :
    run_retis_on_node exec node image wd false
      = (false, [collection_command node image wd, status_command node]) := by
  have hne : (r.stdout == "") = false := by
    refine beq_eq_false_iff_ne.mpr fun h0 => ?_
    rw [h0] at hf
    exact absurd hf (by decide)
  simp only [run_retis_on_node, hc, hrc, hs]
  simp [run_status_verdict, classify_status, status_decision, hne, hf]

/-- Witness for C10: a concrete status output containing both
"Active: active" and "status=0" alongside "failed" is classified as a
failure. -/
theorem c10_failed_substring_wins_witness :
    contains_substr (py_lower mixed_status_output) "failed" = true ∧
    contains_substr (py_lower mixed_status_output) "active: active" = true ∧
    contains_substr (py_lower mixed_status_output) "status=0" = true ∧
    run_retis_on_node exec_mixed "n1" "img" "/var/tmp" false
      = (false, [collection_command "n1" "img" "/var/tmp", status_command "n1"]) := by
  refine ⟨by decide, by decide, by decide, ?_⟩
  refine c10_failed_substring_wins exec_mixed "n1" "img" "/var/tmp"
    ⟨0, "ok", ""⟩ ⟨0, mixed_status_output, ""⟩ ?_ rfl ?_ (by decide)
  · simp only [exec_mixed]
    rw [if_neg (by decide)]
  · simp [exec_mixed]

/-- C4: the sequential loop walks the node list in input order, printing
the progress line i/N immediately before invoking the action on the i-th
node; the outcomes recorded along the trace are the nodes paired with
their results in input order, and the accumulated success count is the
count of successes over the input list. -/
theorem c4_sequential_input_order (action : String → Bool) (nodes : List String) :
    seq_run_events action nodes.length 1 nodes
      = (List.enumFrom 1 nodes).flatMap
          (fun p => [SeqEvent.progress p.1 nodes.length,
                     SeqEvent.invocation p.2 (action p.2)]) ∧
    (seq_run_events action nodes.length 1 nodes).filterMap invocation_of
      = nodes.map (fun n => (n, action n)) ∧
    success_count action nodes = nodes.countP action := by
  have key : ∀ (total i : Nat) (l : List String),
      seq_run_events action total i l
        = (List.enumFrom i l).flatMap
            (fun p => [SeqEvent.progress p.1 total,
                       SeqEvent.invocation p.2 (action p.2)]) := by
    intro total i l
    induction l generalizing i with
    | nil => rfl
    | cons a t ih => simp [seq_run_events, List.enumFrom, ih]
  have key2 : ∀ (total i : Nat) (l : List String),
      (seq_run_events action total i l).filterMap invocation_of
        = l.map (fun n => (n, action n)) := by
    intro total i l
    induction l generalizing i with
    | nil => rfl
    | cons a t ih => simp [seq_run_events, List.filterMap_cons, invocation_of, ih]
  exact ⟨key nodes.length 1 nodes, key2 nodes.length 1 nodes,
    success_count_eq_countP action nodes⟩

/-- C3: in parallel mode the futures dictionary receives one submitted
task per node - its entries are keyed by pairwise distinct futures and
its values are exactly the node list, so a duplicate-free node list
yields exactly one task per node - and the worker pool size is
min(len(nodes), 5). -/
theorem c3_one_task_per_node (nodes : List String)
    (_hne : nodes ≠ []) (hnd : nodes.Nodup) :
    (future_to_node nodes).length = nodes.length ∧
    ((future_to_node nodes).map Prod.fst).Nodup ∧
    (future_to_node nodes).map Prod.snd = nodes ∧
    (∀ n ∈ nodes, ((future_to_node nodes).map Prod.snd).count n = 1) ∧
    max_workers nodes = min nodes.length 5 := by
  refine ⟨by simp [future_to_node], ?_, ?_, ?_, rfl⟩
  · rw [future_to_node, List.enum_map_fst]
    exact List.nodup_range nodes.length
  · rw [future_to_node]
    exact List.enum_map_snd nodes
  · intro n hn
    rw [future_to_node, List.enum_map_snd]
    exact List.count_eq_one_of_mem hnd hn

/-- Witness for C3 at a concrete two-node list. -/
theorem c3_one_task_per_node_witness :
    (future_to_node ["a", "b"]).length = 2 ∧ max_workers ["a", "b"] = 2 := by
  have h := c3_one_task_per_node ["a", "b"] (by decide) (by decide)
  refine ⟨h.1, ?_⟩
  rw [h.2.2.2.2]
  decide

/-- C1: for every node list and every action failing exactly on a subset S
of the nodes, the final summary reports failed = |S| and succeeded =
|nodes| - |S|, in sequential mode (which processes the input order) as
well as in parallel mode (which processes an arbitrary completion order). -/
theorem c1_summary_counts_subset
    (nodes order : List String) (S : Finset String) (action : String → Bool)
    (hnd : nodes.Nodup) (hperm : order.Perm nodes)
    (hsub : ∀ s ∈ S, s ∈ nodes)
    (hact : ∀ n ∈ nodes, (action n = false ↔ n ∈ S)) :
    collection_summary nodes (success_count action nodes)
        = ⟨nodes.length, nodes.length - S.card, S.card⟩ ∧
    collection_summary nodes (success_count action order)
        = ⟨nodes.length, nodes.length - S.card, S.card⟩ := by
  have hfail : nodes.countP (fun n => !action n) = S.card := by
    have h1 : nodes.countP (fun n => !action n)
        = nodes.countP (fun n => decide (n ∈ S)) := by
      refine countP_congr_mem nodes _ _ fun n hn => ?_
      by_cases hS : n ∈ S
      · simp [hS, (hact n hn).mpr hS]
      · have hT : action n = true := by
          cases h : action n
          · exact absurd ((hact n hn).mp h) hS
          · rfl
        simp [hS, hT]
    rw [h1]
    exact countP_mem_finset nodes S hnd hsub
  have hcardle : S.card ≤ nodes.length := by
    rw [← hfail]
    exact List.countP_le_length _
  have hsplit := countP_bool_split nodes action
  have hsucc : success_count action nodes = nodes.length - S.card := by
    rw [success_count_eq_countP]
    omega
  have hsucc2 : success_count action order = nodes.length - S.card := by
    rw [success_count_eq_countP, hperm.countP_eq, ← success_count_eq_countP, hsucc]
  constructor
  · rw [hsucc]
    simp [collection_summary]
    omega
  · rw [hsucc2]
    simp [collection_summary]
    omega

/-- Witness for C1: three worker nodes with the action failing exactly on
worker-b give the summary total 3, succeeded 2, failed 1 in both modes. -/
theorem c1_summary_counts_subset_witness :
    collection_summary ["worker-a", "worker-b", "worker-c"]
        (success_count (fun n => n != "worker-b") ["worker-a", "worker-b", "worker-c"])
      = ⟨3, 2, 1⟩ ∧
    collection_summary ["worker-a", "worker-b", "worker-c"]
        (success_count (fun n => n != "worker-b") ["worker-c", "worker-a", "worker-b"])
      = ⟨3, 2, 1⟩ := by
  have h := c1_summary_counts_subset ["worker-a", "worker-b", "worker-c"]
    ["worker-c", "worker-a", "worker-b"] {"worker-b"} (fun n => n != "worker-b")
    (by decide) (by decide) (by decide) (by decide)
  constructor
  · rw [h.1]; decide
  · rw [h.2]; decide

/-- C2: an exception raised for one node is caught at the per-node
boundary.  In the as_completed loop it is recorded as a failure for that
node only: every completed future still yields a recorded outcome, the
other nodes keep their own results, and exactly one failure is attributed
to the raising node.  Inside run_retis_on_node the catch-all likewise
converts an exception from the execution layer into a False result
instead of propagating it. -/
theorem c2_exception_contained
    (nodes order : List String) (action : String → Except String Bool)
    (g : String → Bool) (n0 e : String)
    (hperm : order.Perm nodes) (hnd : nodes.Nodup) (hmem : n0 ∈ nodes)
    (hex : action n0 = Except.error e)
    (hok : ∀ n, n ≠ n0 → action n = Except.ok (g n)) :
    par_results action order = order.map (fun n => (n, if n = n0 then false else g n)) ∧
    (par_results action order).map Prod.fst = order ∧
    (par_results action order).countP (fun r => r.1 == n0 && !r.2) = 1 ∧
    (∀ exec : Exec, ∀ node image wd err,
      exec (collection_command node image wd) = Except.error err →
      run_retis_on_node exec node image wd false
        = (false, [collection_command node image wd])) := by
  have h1 : ∀ l : List String,
      par_results action l = l.map (fun n => (n, if n = n0 then false else g n)) := by
    intro l
    induction l with
    | nil => rfl
    | cons a t ih =>
      by_cases ha : a = n0
      · subst ha
        simp [par_results, hex, ih]
      · simp [par_results, hok a ha, ih, ha]
  have hordnd : order.Nodup := hperm.symm.nodup hnd
  have hordmem : n0 ∈ order := hperm.mem_iff.mpr hmem
  refine ⟨h1 order, ?_, ?_, ?_⟩
  · rw [h1 order, List.map_map]
    exact List.map_id order
  · rw [h1 order, List.countP_map]
    have h2 : order.countP
        ((fun r : String × Bool => r.1 == n0 && !r.2) ∘
          (fun n => (n, if n = n0 then false else g n)))
        = order.countP (fun n => n == n0) := by
      refine countP_congr_mem order _ _ fun n _ => ?_
      by_cases hn : n = n0
      · subst hn; simp
      · simp [hn]
    rw [h2]
    have h3 := List.count_eq_one_of_mem hordnd hordmem
    simpa [List.count] using h3
  · intro exec node image wd err h
    simp [run_retis_on_node, h]

/-- Witness for C2: with the completion order b, a and the action raising
for a only, the recorded outcomes are (b, true) and (a, false); a raising
execution layer yields a False result from run_retis_on_node. -/
theorem c2_exception_contained_witness :
    par_results act_exn ["b", "a"] = [("b", true), ("a", false)] ∧
    run_retis_on_node exec_stub "n1" "img" "/var/tmp" false
      = (false, [collection_command "n1" "img" "/var/tmp"]) := by
  have h := c2_exception_contained ["a", "b"] ["b", "a"] act_exn (fun _ => true) "a" "boom"
    (by decide) (by decide) (by decide)
    (by simp [act_exn])
    (fun n hn => by simp [act_exn, hn])
  refine ⟨?_, h.2.2.2 exec_stub "n1" "img" "/var/tmp" "unavailable" rfl⟩
  rw [h.1]
  decide

/-- C5: with dry_run set, the run dispatches no remote command at all -
each of the three per-node functions returns success immediately without
consulting the execution layer - yet main still finishes with a complete
summary whose total equals the input node count, on the stop path and on
the collection path, sequentially or in parallel. -/
theorem c5_dry_run_no_dispatch (exec : Exec) (image wd ls : String)
    (stop parallel downloadOk : Bool) (nodes order : List String)
    (hne : nodes ≠ []) (hperm : order.Perm nodes) :
    main_run exec image wd ls stop parallel true downloadOk nodes order
        = (RunOutcome.finished ⟨nodes.length, nodes.length, 0⟩, []) ∧
    (∀ n, run_retis_on_node exec n image wd true = (true, []) ∧
          stop_retis_on_node exec n true = (true, []) ∧
          setup_script_on_node exec n wd ls true = (true, [])) := by
  refine ⟨?_, fun n => ⟨rfl, rfl, rfl⟩⟩
  have hie : nodes.isEmpty = false := by
    cases nodes with
    | nil => exact absurd rfl hne
    | cons a t => rfl
  have hplen : (if parallel then order else nodes).length = nodes.length := by
    cases parallel
    · rfl
    · simpa using hperm.length_eq
  cases stop with
  | true =>
    have hfan := fan_out_of_dry (fun n => stop_retis_on_node exec n true)
      (fun n => rfl) (if parallel then order else nodes)
    simp [main_run, hie, hfan, hplen, collection_summary]
  | false =>
    have hfan := fan_out_of_dry (fun n => run_retis_on_node exec n image wd true)
      (fun n => rfl) (if parallel then order else nodes)
    have hsetup : ∀ n ∈ nodes, (setup_script_on_node exec n wd ls true).2 = [] :=
      fun n _ => rfl
    simp [main_run, hie, collect_phase, setup_failed_nodes_dry, effective_nodes_dry,
      hfan, hplen, collection_summary, flatten_map_nil _ _ hsetup]

/-- Witness for C5: a one-node dry run finishes with total 1, succeeded 1,
failed 0, no dispatched command, under an oracle that would raise. -/
theorem c5_dry_run_no_dispatch_witness :
    main_run exec_stub "img" "/var/tmp" "/tmp/s" false false true false ["a"] ["a"]
        = (RunOutcome.finished ⟨1, 1, 0⟩, []) ∧
    run_retis_on_node exec_stub "a" "img" "/var/tmp" true = (true, []) := by
  have h := c5_dry_run_no_dispatch exec_stub "img" "/var/tmp" "/tmp/s" false false false
    ["a"] ["a"] (by decide) (by decide)
  exact ⟨h.1, (h.2 "a").1⟩

/-- C6 (amended): the run aborts before the per-node collection dispatch
exactly when the node set is empty, or - on the collection path outside
dry-run mode - when the local script download fails or when setup failed
on every node; no other condition aborts the run before dispatch. -/
theorem c6_abort_conditions (exec : Exec) (image wd ls : String)
    (stop parallel dryRun downloadOk : Bool) (nodes order : List String) :
    aborted_before_dispatch
        (main_run exec image wd ls stop parallel dryRun downloadOk nodes order).1 = true
      ↔ (nodes = [] ∨ (stop = false ∧ dryRun = false ∧
          (downloadOk = false ∨
            ∀ n ∈ nodes, (setup_script_on_node exec n wd ls false).1 = false))) := by
  by_cases hne : nodes = []
  · subst hne
    simp [main_run, aborted_before_dispatch]
  · have hie : nodes.isEmpty = false := by
      cases nodes with
      | nil => exact absurd rfl hne
      | cons a t => rfl
    cases stop with
    | true => simp [main_run, hie, aborted_before_dispatch, hne]
    | false =>
      cases dryRun with
      | true =>
        simp [main_run, hie, collect_phase, setup_failed_nodes_dry,
          aborted_before_dispatch, hne]
      | false =>
        cases downloadOk with
        | false =>
          simp [main_run, hie, collect_phase, aborted_before_dispatch, hne]
        | true =>
          by_cases hall : ∀ n ∈ nodes, (setup_script_on_node exec n wd ls false).1 = false
          · have hF : setup_failed_nodes exec wd ls false nodes = nodes := by
              unfold setup_failed_nodes
              refine List.filter_eq_self.mpr fun n hn => ?_
              rw [hall n hn]
              rfl
            have hFne : (setup_failed_nodes exec wd ls false nodes).isEmpty = false := by
              rw [hF]
              exact hie
            have hN2 : (effective_nodes exec wd ls false nodes).isEmpty = true := by
              simp only [effective_nodes, hF, hFne]
              rw [if_pos (by simp [hFne, hF, hne])]
              rw [List.isEmpty_iff, List.filter_eq_nil_iff]
              intro n hn
              simp [hF]
              exact hn
            have hmain : aborted_before_dispatch
                (main_run exec image wd ls false parallel false true nodes order).1
                  = true := by
              simp [main_run, hie, collect_phase, hFne, hN2, aborted_before_dispatch]
            rw [hmain]
            simp [hne]
            exact hall
          · have hex2 := hall
            push_neg at hex2
            obtain ⟨n1, hn1mem, hn1⟩ := hex2
            have hn1T : (setup_script_on_node exec n1 wd ls false).1 = true := by
              cases h : (setup_script_on_node exec n1 wd ls false).1
              · exact absurd h hn1
              · rfl
            have hn1F : n1 ∉ setup_failed_nodes exec wd ls false nodes := by
              intro hmem2
              have h2 := (List.mem_filter.mp hmem2).2
              rw [hn1T] at h2
              simp at h2
            have hN2 : (effective_nodes exec wd ls false nodes).isEmpty = false := by
              by_cases hFe : (setup_failed_nodes exec wd ls false nodes).isEmpty = true
              · simp only [effective_nodes, hFe]
                simpa [List.isEmpty_iff] using hne
              · have hn1N2 : n1 ∈ effective_nodes exec wd ls false nodes := by
                  simp only [effective_nodes]
                  rw [if_pos (by simp [hFe])]
                  refine List.mem_filter.mpr ⟨hn1mem, ?_⟩
                  have hc : (setup_failed_nodes exec wd ls false nodes).contains n1 = false := by
                    cases h : (setup_failed_nodes exec wd ls false nodes).contains n1
                    · rfl
                    · exact absurd (List.elem_iff.mp h) hn1F
                  rw [hc]
                  rfl
                simpa [List.isEmpty_iff] using List.ne_nil_of_mem hn1N2
            have hmain : aborted_before_dispatch
                (main_run exec image wd ls false parallel false true nodes order).1
                  = false := by
              simp [main_run, hie, collect_phase, hN2, aborted_before_dispatch]
            rw [hmain]
            simp [hne]
            exact ⟨n1, hn1mem, hn1T⟩

/-- Counterexample for C6 as stated: a non-empty node set still aborts the
run before any per-node action is dispatched when the local script
download fails outside dry-run mode. -/
theorem c6_download_abort_counterexample :
    (["worker-a"] : List String) ≠ [] ∧
    main_run exec_stub "img" "/var/tmp" "/tmp/s" false false false false
        ["worker-a"] ["worker-a"]
      = (RunOutcome.downloadFailed, []) := by
  exact ⟨by decide, rfl⟩

/-- C8 (amended): every completed run reports a summary whose total is the
number of dispatched nodes and whose succeeded and failed counts
partition that total; the summary is all that the run returns. -/
theorem c8_summary_partition (exec : Exec) (image wd ls : String)
    (stop parallel dryRun downloadOk : Bool) (nodes order : List String)
    (s : RunSummary) (t : List String)
    (hperm : order.Perm (dispatch_list exec wd ls stop dryRun nodes))
    (hrun : main_run exec image wd ls stop parallel dryRun downloadOk nodes order
      = (RunOutcome.finished s, t)) :
    s.succeeded + s.failed = s.total ∧
    s.total = (dispatch_list exec wd ls stop dryRun nodes).length := by
  cases hie : nodes.isEmpty with
  | true =>
    rw [main_run, if_pos hie] at hrun
    exact absurd hrun (by simp)
  | false =>
    rw [main_run, if_neg (by simp [hie])] at hrun
    cases stop with
    | true =>
      rw [if_pos rfl] at hrun
      have hfst : (RunOutcome.finished (collection_summary nodes
            (fan_out (fun n => stop_retis_on_node exec n dryRun)
              (if parallel then order else nodes)).1), (fan_out
            (fun n => stop_retis_on_node exec n dryRun)
              (if parallel then order else nodes)).2)
          = ((RunOutcome.finished s : RunOutcome), t) := hrun
      have hs : s = collection_summary nodes
          (fan_out (fun n => stop_retis_on_node exec n dryRun)
            (if parallel then order else nodes)).1 := by
        have := congrArg Prod.fst hfst
        simp at this
        exact this.symm
      have hdl : dispatch_list exec wd ls true dryRun nodes = nodes := by
        simp [dispatch_list]
      have hlen : (if parallel then order else nodes).length = nodes.length := by
        cases parallel
        · rfl
        · rw [hdl] at hperm
          simpa using hperm.length_eq
      have hle := fan_out_fst_le (fun n => stop_retis_on_node exec n dryRun)
        (if parallel then order else nodes)
      rw [hlen] at hle
      rw [hs, hdl]
      simp [collection_summary]
      omega
    | false =>
      rw [if_neg (by simp)] at hrun
      by_cases hc1 : (!dryRun && !downloadOk) = true
      · rw [collect_phase, if_pos hc1] at hrun
        exact absurd hrun (by simp)
      · by_cases hc2 : ((!(setup_failed_nodes exec wd ls dryRun nodes).isEmpty && !dryRun)
            && (effective_nodes exec wd ls dryRun nodes).isEmpty) = true
        · have habs : (collect_phase exec image wd ls parallel dryRun downloadOk nodes order).1
              = RunOutcome.noSetupNodes := by
            simp only [collect_phase]
            rw [if_neg hc1, if_pos hc2]
          rw [hrun] at habs
          exact absurd habs (by simp)
        · have hfst : (collect_phase exec image wd ls parallel dryRun downloadOk nodes order).1
              = RunOutcome.finished (collection_summary
                  (effective_nodes exec wd ls dryRun nodes)
                  (fan_out (fun n => run_retis_on_node exec n image wd dryRun)
                    (if parallel then order
                     else effective_nodes exec wd ls dryRun nodes)).1) := by
            simp only [collect_phase]
            rw [if_neg hc1, if_neg hc2]
          rw [hrun] at hfst
          have hs : s = collection_summary (effective_nodes exec wd ls dryRun nodes)
              (fan_out (fun n => run_retis_on_node exec n image wd dryRun)
                (if parallel then order
                 else effective_nodes exec wd ls dryRun nodes)).1 := by
            simpa using hfst
          have hdl : dispatch_list exec wd ls false dryRun nodes
              = effective_nodes exec wd ls dryRun nodes := by
            simp [dispatch_list]
          have hlen : (if parallel then order
              else effective_nodes exec wd ls dryRun nodes).length
              = (effective_nodes exec wd ls dryRun nodes).length := by
            cases parallel
            · rfl
            · rw [hdl] at hperm
              simpa using hperm.length_eq
          have hle := fan_out_fst_le (fun n => run_retis_on_node exec n image wd dryRun)
            (if parallel then order else effective_nodes exec wd ls dryRun nodes)
          rw [hlen] at hle
          rw [hs, hdl]
          simp [collection_summary]
          omega

/-- Witness for C8 (amended) at a one-node dry stop run: the summary is
total 1 = succeeded 1 + failed 0, and total equals the dispatched count. -/
theorem c8_summary_partition_witness :
    (1 + 0 = 1) ∧
    (1 = (dispatch_list exec_stub "/var/tmp" "/tmp/s" true true ["a"]).length) := by
  exact c8_summary_partition exec_stub "img" "/var/tmp" "/tmp/s" true false true false
    ["a"] ["a"] ⟨1, 1, 0⟩ [] (by decide) (by decide)

/-- Counterexample for C8 as stated: two oracles that make different nodes
fail produce identical run results (same returned outcome, same summary,
same dispatched commands), while the per-node outcome of node a differs;
the full list of per-node outcomes is therefore not part of the result
made available to a caller. -/
theorem c8_no_outcome_list_counterexample :
    main_run exec_fail_a "img" "/var/tmp" "/tmp/s" false false false true
        ["a", "b"] ["a", "b"]
      = main_run exec_fail_b "img" "/var/tmp" "/tmp/s" false false false true
          ["a", "b"] ["a", "b"] ∧
    (run_retis_on_node exec_fail_a "a" "img" "/var/tmp" false).1 = false ∧
    (run_retis_on_node exec_fail_b "a" "img" "/var/tmp" false).1 = true := by
  refine ⟨by decide, by decide, by decide⟩
